import Mathlib

/-!
Verification of the knowledge-state and path-scoring engine of the
PersonalizedTutorAgent repository.  The Python modules
`src/learner_profiling.py`, `src/knowledge_tracing.py`,
`src/learning_path.py` and `src/adaptive_quiz.py` are shallowly embedded
below: Python floats become rationals, Python dicts become association
lists (`List (String × ℚ)`) or total functions where every relevant key is
guaranteed present, and operations that can raise `KeyError` return
`Option`.
-/

namespace PersonalizedTutor

/-! ### Learner profiling (`learner_profiling.py`) -/

/-- Per-concept counters of `LearnerProfile.concept_metrics`.  Only the
fields read by `calculate_mastery_probability` (`attempts`, `correct`,
`streak`) are carried; the timing and difficulty-faced fields do not feed
the mastery formula. -/
structure ConceptMetrics where
  attempts : ℕ
  correct : ℕ
  streak : ℕ
deriving DecidableEq

/-- Embedding of `np.clip(x, 0.0, 1.0)`. -/
def clip01 (x : ℚ) : ℚ := min (max x 0) 1

/-- Body of `LearnerProfile.calculate_mastery_probability` once the
metrics record for the concept is in hand (lines 107-129 of
`learner_profiling.py`): zero when never attempted, otherwise the clipped
sum of accuracy, streak bonus and effort weight. -/
def masteryOfMetrics (m : ConceptMetrics) : ℚ :=
  if m.attempts = 0 then 0
  else
    let accuracy : ℚ := (m.correct : ℚ) / (m.attempts : ℚ)
    let streak_bonus : ℚ := min (1/10) ((m.streak : ℚ) * (1/20))
    let effort_weight : ℚ := min 1 ((m.attempts : ℚ) / 10) * (1/10)
    clip01 (accuracy + streak_bonus + effort_weight)

/-- Lookup in an association list, the embedding of a Python dict access. -/
def lookupMetrics : List (String × ConceptMetrics) → String → Option ConceptMetrics
  | [], _ => none
  | (k, v) :: rest, c => if k = c then some v else lookupMetrics rest c

/-- State of a `LearnerProfile`: the configured concept list and the
per-concept metrics that exist so far.  `concept_metrics` is a
`defaultdict`, so a concept with no interactions simply has no entry. -/
structure LearnerProfile where
  concepts : List String
  concept_metrics : List (String × ConceptMetrics)

/-- Embedding of `LearnerProfile.calculate_mastery_probability(concept)`:
a concept absent from `concept_metrics` (never attempted, or entirely
unknown to the system) yields `0.0`; the function is total and never
raises. -/
def calculate_mastery_probability (p : LearnerProfile) (c : String) : ℚ :=
  match lookupMetrics p.concept_metrics c with
  | none => 0
  | some m => masteryOfMetrics m

/-! ### Knowledge tracing (`knowledge_tracing.py`) -/

/-- Knowledge state: the Python dict mapping concept name to mastery. -/
abbrev KnowledgeState := List (String × ℚ)

/-- Dict read: `ks[c]` returning `none` where Python raises `KeyError`. -/
def lookupK : KnowledgeState → String → Option ℚ
  | [], _ => none
  | (k, v) :: rest, c => if k = c then some v else lookupK rest c

/-- Dict write `ks[c] = v` on a fresh copy: replaces the binding of `c`,
or appends it when absent. -/
def setK : KnowledgeState → String → ℚ → KnowledgeState
  | [], c, v => [(c, v)]
  | (k, w) :: rest, c, v =>
      if k = c then (c, v) :: rest else (k, w) :: setK rest c v

/-- Dict read with default, `ks.get(c, 0.0)`. -/
def kget (ks : KnowledgeState) (c : String) : ℚ := (lookupK ks c).getD 0

/-- Configuration of `SimplifiedDKT`: concept list plus the two
transition parameters shared by every concept of the transition matrix. -/
structure SimplifiedDKT where
  concepts : List String
  learning_rate : ℚ
  forget_rate : ℚ

/-- Core mastery transition of `SimplifiedDKT.predict_next_state`:
`min(1, m + (1-m)*p_learn)` on a correct answer, `max(0, m - m*p_forget)`
on an incorrect one. -/
def masteryUpdate (p_learn p_forget m : ℚ) (is_correct : Bool) : ℚ :=
  if is_correct then min 1 (m + (1 - m) * p_learn)
  else max 0 (m - m * p_forget)

/-- Embedding of `SimplifiedDKT.predict_next_state`: the transition-matrix
access fails for a concept outside the configured list, the state access
fails for a concept absent from the dict; otherwise the concept's entry is
updated on a copy of the state. -/
def predict_next_state (dkt : SimplifiedDKT) (ks : KnowledgeState)
    (c : String) (is_correct : Bool) : Option KnowledgeState :=
  if c ∈ dkt.concepts then
    match lookupK ks c with
    | some m => some (setK ks c (masteryUpdate dkt.learning_rate dkt.forget_rate m is_correct))
    | none => none
  else none

/-- Embedding of `SimplifiedDKT.predict_performance`: the two-point
mixture `0.9 * mastery + 0.1 * (1 - mastery)`, after the same two dict
accesses. -/
def predict_performance (dkt : SimplifiedDKT) (ks : KnowledgeState)
    (c : String) : Option ℚ :=
  if c ∈ dkt.concepts then
    match lookupK ks c with
    | some m => some ((9/10) * m + (1/10) * (1 - m))
    | none => none
  else none

/-- Fueled form of the `while temp_mastery < threshold and steps < 100`
loop of `estimate_steps_to_mastery`; the fuel is the remaining allowance
of the 100-step cap. -/
def stepsLoop (p_learn threshold : ℚ) : ℕ → ℚ → ℕ
  | 0, _ => 0
  | fuel + 1, m =>
      if m < threshold then stepsLoop p_learn threshold fuel (m + (1 - m) * p_learn) + 1
      else 0

/-- Embedding of `SimplifiedDKT.estimate_steps_to_mastery`: the state dict
is read first (possible `KeyError`), mastery at or above the threshold
returns 0 before the transition matrix is touched, and only then does an
unknown concept fail. -/
def estimate_steps_to_mastery (dkt : SimplifiedDKT) (ks : KnowledgeState)
    (c : String) (threshold : ℚ) : Option ℕ :=
  match lookupK ks c with
  | none => none
  | some m =>
      if threshold ≤ m then some 0
      else if c ∈ dkt.concepts then some (stepsLoop dkt.learning_rate threshold 100 m)
      else none

/-! ### Learning path generation (`learning_path.py`) -/

/-- Configuration of `LearningPathGenerator`.  Difficulty, prerequisite
and estimated-time maps are modelled as total functions: the constructor
fills a default for every configured concept, and the code reads them only
at configured concepts. -/
structure LearningPathGenerator where
  concepts : List String
  concept_difficulty : String → ℚ
  prerequisites : String → List String
  estimated_times : String → ℕ

/-- Embedding of `_check_prerequisites_met`: every prerequisite of `c`
must have mastery at least `threshold` (default 0.6 at the call site) in
the student's knowledge dict, reading absent concepts as `0.0`. -/
def check_prerequisites_met (g : LearningPathGenerator) (ks : KnowledgeState)
    (c : String) (threshold : ℚ) : Bool :=
  (g.prerequisites c).all (fun p => decide (threshold ≤ kget ks p))

/-- Candidate gate of `generate_path` (lines 85-99): not already mastered
(mastery < 0.85), not too difficult (difficulty ≤ max), prerequisites met
at threshold 0.6. -/
def isCandidate (g : LearningPathGenerator) (ks : KnowledgeState)
    (max_difficulty : ℚ) (c : String) : Bool :=
  decide (kget ks c < 17/20) && decide (g.concept_difficulty c ≤ max_difficulty)
    && check_prerequisites_met g ks c (3/5)

/-- Embedding of `_calculate_concept_priority`.  The weak-concept boost
fires exactly when the Python truthiness test
`weak_concepts and concept in weak_concepts` passes: a non-empty weak list
containing the concept. -/
def conceptPriority (g : LearningPathGenerator) (ks : KnowledgeState)
    (weak : List String) (preference : String) (c : String) : ℚ :=
  let mastery_gap := 1 - kget ks c
  let difficulty := g.concept_difficulty c
  if preference = "balanced" then
    let p := (1/2) * mastery_gap + (3/10) * difficulty
    if weak ≠ [] ∧ c ∈ weak then p * (13/10) else p
  else if preference = "progressive" then
    (2/5) * mastery_gap + (3/5) * difficulty
  else if preference = "review" then
    if weak ≠ [] ∧ c ∈ weak then mastery_gap * 2 else mastery_gap
  else mastery_gap

/-- Sort key of `_topological_sort_concepts`: count of prerequisites
inside the selection, then difficulty, then negated mastery gap. -/
def sortKeyT (g : LearningPathGenerator) (ks : KnowledgeState)
    (sel : List String) (c : String) : ℕ × ℚ × ℚ :=
  (((g.prerequisites c).filter (fun p => p ∈ sel)).length,
   g.concept_difficulty c, -(1 - kget ks c))

/-- Lexicographic order on the sort-key tuples, mirroring Python tuple
comparison. -/
def tupLE (a b : ℕ × ℚ × ℚ) : Prop :=
  a.1 < b.1 ∨ (a.1 = b.1 ∧ a.2.1 < b.2.1) ∨ (a.1 = b.1 ∧ a.2.1 = b.2.1 ∧ a.2.2 ≤ b.2.2)

instance : DecidableRel tupLE := fun _ _ =>
  inferInstanceAs (Decidable (_ ∨ _))

/-- Embedding of `_estimate_bloom_level` as a function of the mastery
value (the Python method reads `student_knowledge.get(concept, 0.0)`). -/
def estimateBloomLevel (m : ℚ) : String :=
  if m < 1/5 then "Remember"
  else if m < 2/5 then "Understand"
  else if m < 3/5 then "Apply"
  else if m < 3/4 then "Analyze"
  else if m < 9/10 then "Evaluate"
  else "Create"

/-- Embedding of `_suggest_resources`: a fixed list, extended with two
entries for difficulty above 0.7. -/
def suggestResources (g : LearningPathGenerator) (c : String) : List String :=
  if g.concept_difficulty c > 7/10 then
    ["Video Lecture", "Reading Material", "Practice Problems",
     "Expert Explanation", "Step-by-step Tutorial"]
  else
    ["Video Lecture", "Reading Material", "Practice Problems"]

/-- Learning path node dict created by `_topological_sort_concepts`; the
`status` field only appears once `adapt_path` has run, hence `Option`. -/
structure PathNode where
  position : ℕ
  concept : String
  difficulty : ℚ
  current_mastery : ℚ
  estimated_time : ℕ
  prerequisites : List String
  bloom_level : String
  resources : List String
  status : Option String
deriving DecidableEq

/-- Node construction of `_topological_sort_concepts` at 0-based index
`idx`. -/
def mkPathNode (g : LearningPathGenerator) (ks : KnowledgeState)
    (idx : ℕ) (c : String) : PathNode :=
  { position := idx + 1
    concept := c
    difficulty := g.concept_difficulty c
    current_mastery := kget ks c
    estimated_time := g.estimated_times c
    prerequisites := g.prerequisites c
    bloom_level := estimateBloomLevel (kget ks c)
    resources := suggestResources g c
    status := none }

/-- Embedding of `_topological_sort_concepts`: stable sort of the
selected concepts by the ascending key tuple, then node construction with
1-based positions. -/
def topological_sort_concepts (g : LearningPathGenerator)
    (sel : List String) (ks : KnowledgeState) : List PathNode :=
  let sorted := List.insertionSort
    (fun a b => tupLE (sortKeyT g ks sel a) (sortKeyT g ks sel b)) sel
  sorted.enum.map (fun p => mkPathNode g ks p.1 p.2)

/-- Filtering stage of `generate_path`: the configured concepts that pass
the three candidate gates, in configuration order. -/
def candidateConcepts (g : LearningPathGenerator) (ks : KnowledgeState)
    (max_difficulty : ℚ) : List String :=
  g.concepts.filter (isCandidate g ks max_difficulty)

/-- Scoring stage of `generate_path`: each candidate paired with its
priority, the `candidate_concepts` list of the source. -/
def scoredCandidates (g : LearningPathGenerator) (ks : KnowledgeState)
    (weak : List String) (max_difficulty : ℚ) (preference : String) :
    List (String × ℚ) :=
  (candidateConcepts g ks max_difficulty).map
    (fun c => (c, conceptPriority g ks weak preference c))

/-- Selection stage of `generate_path`: stable sort by descending
priority, then the top `num_concepts` concept names. -/
def selectedConcepts (g : LearningPathGenerator) (ks : KnowledgeState)
    (weak : List String) (num_concepts : ℕ) (max_difficulty : ℚ)
    (preference : String) : List String :=
  ((List.insertionSort (fun a b : String × ℚ => b.2 ≤ a.2)
      (scoredCandidates g ks weak max_difficulty preference)).take num_concepts).map
    Prod.fst

/-- Embedding of `generate_path`: filter the configured concepts through
the candidate gate, score them, sort by descending priority, keep the top
`num_concepts`, and order those through the heuristic sort. -/
def generate_path (g : LearningPathGenerator) (ks : KnowledgeState)
    (weak : List String) (num_concepts : ℕ) (max_difficulty : ℚ)
    (preference : String) : List PathNode :=
  topological_sort_concepts g
    (selectedConcepts g ks weak num_concepts max_difficulty preference) ks

/-- Embedding of `adapt_path`: each node's mastery is refreshed from the
latest performance dict (defaulting to the node's stored mastery), the
taxonomy tier is recomputed from the new mastery, and the status is set by
the 0.85 completion threshold.  Order and membership are untouched. -/
def adapt_path (path : List PathNode) (latest : KnowledgeState) : List PathNode :=
  path.map (fun node =>
    let nm := (lookupK latest node.concept).getD node.current_mastery
    { node with
        current_mastery := nm
        bloom_level := estimateBloomLevel nm
        status := some (if 17/20 ≤ nm then "completed" else "in-progress") })

/-! ### Adaptive quiz engine (`adaptive_quiz.py`) -/

/-- Python slice `l[-n:]`. -/
def lastN (n : ℕ) (l : List Bool) : List Bool := l.drop (l.length - n)

/-- Mean correctness over the last five recorded responses,
`np.mean([r['is_correct'] for r in self.responses[-5:]])`. -/
def recentAccuracy (responses : List Bool) : ℚ :=
  ((lastN 5 responses).countP id : ℚ) / ((lastN 5 responses).length : ℚ)

/-- Embedding of `AdaptiveQuizEngine.should_continue_quiz`, preserving
the source's check order: fewer than 3 responses continues; a rolling
accuracy strictly inside (0.3, 0.8) continues; only then does the
10-response cap stop; everything else falls through to continue. -/
def should_continue_quiz (responses : List Bool) : Bool :=
  if responses.length < 3 then true
  else if 3/10 < recentAccuracy responses ∧ recentAccuracy responses < 4/5 then true
  else if 10 ≤ responses.length then false
  else true

/-- State of `DifficultyAdaptor`: the tier index into
`['Easy', 'Medium', 'Hard']` and the recorded pass flags. -/
structure DifficultyAdaptor where
  difficulty_idx : ℕ
  response_history : List Bool
deriving DecidableEq

/-- Embedding of `DifficultyAdaptor.get_next_difficulty`: append the pass
flag `recent_accuracy > 0.65`, then with at least three flags adjust the
tier index by the last-3 window (two or more passes escalate capped at 2,
zero passes de-escalate floored at 0 via truncated subtraction, otherwise
hold). -/
def get_next_difficulty (st : DifficultyAdaptor) (recent_accuracy : ℚ) :
    DifficultyAdaptor :=
  let hist := st.response_history ++ [decide (recent_accuracy > 13/20)]
  let idx :=
    if 3 ≤ hist.length then
      let s := (lastN 3 hist).countP id
      if 2 ≤ s then min 2 (st.difficulty_idx + 1)
      else if s = 0 then st.difficulty_idx - 1
      else st.difficulty_idx
    else st.difficulty_idx
  ⟨idx, hist⟩

/-! ### Specification-side definitions and sample fixtures -/

/-- Concrete two-concept generator used by witness theorems: concept `A`
has difficulty 0.3 and no prerequisites, concept `B` has difficulty 0.5
and prerequisite `A`. -/
def sampleGen : LearningPathGenerator :=
  ⟨["A", "B"], fun c => if c = "A" then 3/10 else 1/2,
   fun c => if c = "B" then ["A"] else [], fun _ => 30⟩

/-- Concrete knowledge state used by witness theorems. -/
def sampleKS : KnowledgeState := [("A", 4/5), ("B", 1/10)]

/-- Priority score as the specification words it: one closed formula per
preference mode, with the weak-concept boost expressed as multiplication
by 1.3 (balanced) or 2.0 (review) exactly when the concept belongs to the
weak-concept set, and the plain mastery gap for any other preference
string. -/
def conceptPrioritySpec (g : LearningPathGenerator) (ks : KnowledgeState)
    (weak : List String) (preference : String) (c : String) : ℚ :=
  let m := kget ks c
  let d := g.concept_difficulty c
  if preference = "balanced" then
    ((1/2) * (1 - m) + (3/10) * d) * (if c ∈ weak then 13/10 else 1)
  else if preference = "progressive" then (2/5) * (1 - m) + (3/5) * d
  else if preference = "review" then (1 - m) * (if c ∈ weak then 2 else 1)
  else 1 - m

/-- Mastery formula as the specification words it: accuracy plus streak
bonus plus effort bonus, clamped to `[0,1]`, with the fixed sentinel `0.0`
for a never-attempted concept. -/
def masterySpec (m : ConceptMetrics) : ℚ :=
  if m.attempts = 0 then 0
  else clip01 ((m.correct : ℚ) / (m.attempts : ℚ)
        + min (1/10) ((m.streak : ℚ) * (1/20))
        + min 1 ((m.attempts : ℚ) / 10) * (1/10))

/-! ### Claim C1 -/

/-- Claim C1: for every concept metrics record the mastery estimator
returns exactly the clamped spec formula, returns exactly `0.0` when
`attempts = 0` or the concept was never attempted, and always lies in
`[0, 1]`. -/
theorem C1_mastery_formula :
    (∀ m : ConceptMetrics, masteryOfMetrics m = masterySpec m) ∧
    (∀ m : ConceptMetrics, m.attempts = 0 → masteryOfMetrics m = 0) ∧
    (∀ p : LearnerProfile, ∀ c : String,
        lookupMetrics p.concept_metrics c = none →
        calculate_mastery_probability p c = 0) ∧
    (∀ m : ConceptMetrics, 0 ≤ masteryOfMetrics m ∧ masteryOfMetrics m ≤ 1) := by
  refine ⟨fun m => rfl, fun m h => by simp [masteryOfMetrics, h], ?_, ?_⟩
  · intro p c h
    simp [calculate_mastery_probability, h]
  · intro m
    unfold masteryOfMetrics
    split
    · norm_num
    · constructor
      · exact le_min (le_max_right _ _) (by norm_num)
      · exact min_le_right _ _

/-- Witness for C1 at the concrete metrics records `⟨0,0,0⟩` (never
attempted) and `⟨5,3,2⟩`. -/
theorem C1_mastery_formula_witness :
    masteryOfMetrics ⟨0, 0, 0⟩ = 0 ∧ masteryOfMetrics ⟨5, 3, 2⟩ = 3/4 := by
  constructor
  · exact C1_mastery_formula.2.1 ⟨0, 0, 0⟩ rfl
  · rw [C1_mastery_formula.1 ⟨5, 3, 2⟩]
    norm_num [masterySpec, clip01]

/-! ### Claim C2 -/

/-- Claim C2: one knowledge-tracing update on a correct response yields
exactly `m + (1-m) * p_learn` (for mastery and learning rate at most 1,
where the `min` cap cannot bite), on an incorrect response exactly
`max(0, m - m * p_forget)`; with the default rates `p_learn = 0.10`,
`p_forget = 0.05`, mastery `0.3` becomes exactly `0.37` after a correct
response and exactly `0.285` after an incorrect one. -/
theorem C2_tracing_update (p_learn p_forget m : ℚ)
    (hm : m ≤ 1) (hp : p_learn ≤ 1) :
    masteryUpdate p_learn p_forget m true = m + (1 - m) * p_learn ∧
    masteryUpdate p_learn p_forget m false = max 0 (m - m * p_forget) ∧
    masteryUpdate (1/10) (1/20) (3/10) true = 37/100 ∧
    masteryUpdate (1/10) (1/20) (3/10) false = 285/1000 := by
  refine ⟨?_, rfl, by norm_num [masteryUpdate], by norm_num [masteryUpdate]⟩
  have h1m : (0 : ℚ) ≤ 1 - m := by linarith
  have hle : m + (1 - m) * p_learn ≤ 1 := by nlinarith
  simp [masteryUpdate, min_eq_right hle]

/-- Witness for C2 at `p_learn = 1/10`, `p_forget = 1/20`, `m = 3/10`. -/
theorem C2_tracing_update_witness :
    masteryUpdate (1/10) (1/20) (3/10) true = 3/10 + (1 - 3/10) * (1/10) :=
  (C2_tracing_update (1/10) (1/20) (3/10) (by norm_num) (by norm_num)).1

/-! ### Helper lemmas for the learning-path theorems -/

theorem tupLE_total (a b : ℕ × ℚ × ℚ) : tupLE a b ∨ tupLE b a := by
  unfold tupLE
  rcases Nat.lt_trichotomy a.1 b.1 with h | h | h
  · exact Or.inl (Or.inl h)
  · rcases lt_trichotomy a.2.1 b.2.1 with h2 | h2 | h2
    · exact Or.inl (Or.inr (Or.inl ⟨h, h2⟩))
    · rcases le_total a.2.2 b.2.2 with h3 | h3
      · exact Or.inl (Or.inr (Or.inr ⟨h, h2, h3⟩))
      · exact Or.inr (Or.inr (Or.inr ⟨h.symm, h2.symm, h3⟩))
    · exact Or.inr (Or.inr (Or.inl ⟨h.symm, h2⟩))
  · exact Or.inr (Or.inl h)

theorem tupLE_trans (a b c : ℕ × ℚ × ℚ) (hab : tupLE a b) (hbc : tupLE b c) :
    tupLE a c := by
  unfold tupLE at *
  rcases hab with h | ⟨e, h⟩ | ⟨e, e', h⟩ <;>
    rcases hbc with g | ⟨f, g⟩ | ⟨f, f', g⟩
  · exact Or.inl (h.trans g)
  · exact Or.inl (f ▸ h)
  · exact Or.inl (f ▸ h)
  · exact Or.inl (e ▸ g)
  · exact Or.inr (Or.inl ⟨e.trans f, h.trans g⟩)
  · exact Or.inr (Or.inl ⟨e.trans f, f' ▸ h⟩)
  · exact Or.inl (e ▸ g)
  · exact Or.inr (Or.inl ⟨e.trans f, lt_of_eq_of_lt e' g⟩)
  · exact Or.inr (Or.inr ⟨e.trans f, e'.trans f', h.trans g⟩)

/-- Sortedness of `insertionSort` for a relation pulled back along a key
function into the tuple order. -/
theorem sorted_insertionSort_key {α : Type} (k : α → ℕ × ℚ × ℚ) (l : List α) :
    List.Sorted (fun a b => tupLE (k a) (k b))
      (List.insertionSort (fun a b => tupLE (k a) (k b)) l) := by
  haveI : IsTotal α (fun a b => tupLE (k a) (k b)) :=
    ⟨fun a b => tupLE_total (k a) (k b)⟩
  haveI : IsTrans α (fun a b => tupLE (k a) (k b)) :=
    ⟨fun a b c => tupLE_trans (k a) (k b) (k c)⟩
  exact List.sorted_insertionSort _ l

/-- The concepts of the nodes built by the ordering stage are exactly the
key-sorted selection. -/
theorem topo_map_concept (g : LearningPathGenerator) (sel : List String)
    (ks : KnowledgeState) :
    (topological_sort_concepts g sel ks).map PathNode.concept =
      List.insertionSort
        (fun a b => tupLE (sortKeyT g ks sel a) (sortKeyT g ks sel b)) sel := by
  unfold topological_sort_concepts
  rw [List.map_map]
  exact List.enum_map_snd _

/-- Every concept reaching the ordering stage passed the filtering
stage. -/
theorem mem_selected_is_candidate (g : LearningPathGenerator)
    (ks : KnowledgeState) (weak : List String) (num_concepts : ℕ)
    (max_difficulty : ℚ) (preference : String) (c : String)
    (hc : c ∈ selectedConcepts g ks weak num_concepts max_difficulty preference) :
    isCandidate g ks max_difficulty c = true := by
  unfold selectedConcepts at hc
  obtain ⟨pr, hpr, hfst⟩ := List.mem_map.mp hc
  have hpr2 := List.take_subset _ _ hpr
  rw [List.mem_insertionSort] at hpr2
  obtain ⟨c', hc', heq⟩ := List.mem_map.mp hpr2
  have hcc : c' = c := by rw [← hfst, ← heq]
  subst hcc
  exact (List.mem_filter.mp hc').2

/-! ### Claim C3 -/

/-- Claim C3: every node of a generated path satisfies all three
candidate gates against the input knowledge vector: mastery strictly
below 0.85, difficulty at most `max_difficulty`, and every prerequisite at
mastery at least 0.6. -/
theorem C3_path_gates (g : LearningPathGenerator) (ks : KnowledgeState)
    (weak : List String) (num_concepts : ℕ) (max_difficulty : ℚ)
    (preference : String) (node : PathNode)
    (hmem : node ∈ generate_path g ks weak num_concepts max_difficulty preference) :
    kget ks node.concept < 17/20 ∧
    g.concept_difficulty node.concept ≤ max_difficulty ∧
    ∀ p ∈ g.prerequisites node.concept, 3/5 ≤ kget ks p := by
  have hc : node.concept ∈
      (generate_path g ks weak num_concepts max_difficulty preference).map
        PathNode.concept :=
    List.mem_map_of_mem _ hmem
  unfold generate_path at hc
  rw [topo_map_concept, List.mem_insertionSort] at hc
  have hcand := mem_selected_is_candidate g ks weak num_concepts max_difficulty
    preference node.concept hc
  simp only [isCandidate, check_prerequisites_met, Bool.and_eq_true,
    decide_eq_true_eq, List.all_eq_true] at hcand
  exact ⟨hcand.1.1, hcand.1.2, hcand.2⟩

/-- Concrete evaluation of the path generator on the sample fixtures:
both concepts qualify, `B` outranks `A` on balanced priority with the
weak-concept boost, and the ordering stage puts `A` (no in-selection
prerequisites) first. -/
theorem sampleGen_path :
    generate_path sampleGen sampleKS ["B"] 2 (4/5) "balanced" =
      [mkPathNode sampleGen sampleKS 0 "A", mkPathNode sampleGen sampleKS 1 "B"] := by
  with_unfolding_all rfl

/-- Witness for C3: the first node of the sample path satisfies all three
gates. -/
theorem C3_path_gates_witness :
    kget sampleKS "A" < 17/20 ∧
    sampleGen.concept_difficulty "A" ≤ 4/5 ∧
    ∀ p ∈ sampleGen.prerequisites "A", 3/5 ≤ kget sampleKS p := by
  have h := C3_path_gates sampleGen sampleKS ["B"] 2 (4/5) "balanced"
    (mkPathNode sampleGen sampleKS 0 "A")
    (by rw [sampleGen_path]; exact List.mem_cons_self _ _)
  exact h

/-! ### Claim C7 -/

/-- Claim C7: the source's priority computation agrees with the
specification's mode-by-mode scoring table, including the silent
mastery-gap fallback for unrecognized preference strings. -/
theorem C7_priority_formula (g : LearningPathGenerator) (ks : KnowledgeState)
    (weak : List String) (preference : String) (c : String) :
    conceptPriority g ks weak preference c =
      conceptPrioritySpec g ks weak preference c := by
  have hiff : (weak ≠ [] ∧ c ∈ weak) ↔ c ∈ weak :=
    ⟨fun h => h.2, fun h => ⟨List.ne_nil_of_mem h, h⟩⟩
  unfold conceptPriority conceptPrioritySpec
  simp only [hiff]
  split_ifs <;> ring

/-! ### Claim C8 -/

/-- Claim C8: the ordering stage lists the selected concepts in ascending
lexicographic order of the tuple (in-selection prerequisite count,
difficulty, negated mastery gap), and removes no concept (the node
concepts are a permutation of the selection). -/
theorem C8_topological_order (g : LearningPathGenerator)
    (sel : List String) (ks : KnowledgeState) :
    ((topological_sort_concepts g sel ks).map PathNode.concept).Perm sel ∧
    List.Sorted
      (fun a b => tupLE (sortKeyT g ks sel a) (sortKeyT g ks sel b))
      ((topological_sort_concepts g sel ks).map PathNode.concept) := by
  rw [topo_map_concept]
  exact ⟨List.perm_insertionSort _ _, sorted_insertionSort_key _ _⟩

/-! ### Claim C4 -/

/-- Counterexample for C4: after ten recorded responses whose last five
contain three correct answers (rolling accuracy 3/5, inside the open
interval), the source still continues the quiz, because the accuracy test
runs before the 10-response cap; the claim asserts should-continue is
never true once 10 or more responses exist. -/
theorem C4_counterexample :
    [true, true, true, true, true, true, true, true, false, false].length = 10 ∧
    should_continue_quiz
      [true, true, true, true, true, true, true, true, false, false] = true := by
  refine ⟨rfl, ?_⟩
  with_unfolding_all rfl

/-- Claim C4 as amended: the quiz continues exactly when fewer than 10
responses have been recorded or the rolling 5-response accuracy lies
strictly between 0.3 and 0.8; equivalently it stops only with at least 10
responses and a converged accuracy.  In particular responses 3 through 9
always continue regardless of accuracy, and the 10-response cap yields to
an unstable accuracy. -/
theorem C4_amended_continuation (rs : List Bool) :
    should_continue_quiz rs = true ↔
      (rs.length < 10 ∨
        (3/10 < recentAccuracy rs ∧ recentAccuracy rs < 4/5)) := by
  unfold should_continue_quiz
  split_ifs with h1 h2 h3
  · simp only [true_iff]
    exact Or.inl (by omega)
  · simp only [true_iff]
    exact Or.inr h2
  · simp only [Bool.false_eq_true, false_iff]
    rintro (h | h)
    · omega
    · exact h2 h
  · simp only [true_iff]
    exact Or.inl (by omega)

/-! ### Claim C5 -/

/-- Counterexample for C5: on the profile configured with the single
concept `A`, querying mastery of the unknown concept `B` returns the
plain value `0.0` instead of failing — the silent default the claim rules
out (no `UnknownConceptError` exists anywhere in the source). -/
theorem C5_counterexample :
    "B" ∉ (⟨["A"], []⟩ : LearnerProfile).concepts ∧
    calculate_mastery_probability ⟨["A"], []⟩ "B" = 0 :=
  ⟨by decide, rfl⟩

/-- Claim C5 as amended: the knowledge-tracing operations fail (a
key-lookup error, embedded as `none`) when the concept is outside the
configured set, respectively absent from the state dict — but the profile
mastery query never fails: it silently returns `0.0` for any concept
without recorded metrics, unknown ids included. -/
theorem C5_amended_unknown_concept :
    (∀ (dkt : SimplifiedDKT) (ks : KnowledgeState) (c : String) (b : Bool),
        c ∉ dkt.concepts → predict_next_state dkt ks c b = none) ∧
    (∀ (dkt : SimplifiedDKT) (ks : KnowledgeState) (c : String),
        c ∉ dkt.concepts → predict_performance dkt ks c = none) ∧
    (∀ (dkt : SimplifiedDKT) (ks : KnowledgeState) (c : String) (th : ℚ),
        lookupK ks c = none → estimate_steps_to_mastery dkt ks c th = none) ∧
    (∀ (p : LearnerProfile) (c : String),
        lookupMetrics p.concept_metrics c = none →
        calculate_mastery_probability p c = 0) := by
  refine ⟨?_, ?_, ?_, ?_⟩
  · intro dkt ks c b hc
    simp [predict_next_state, hc]
  · intro dkt ks c hc
    simp [predict_performance, hc]
  · intro dkt ks c th h
    simp [estimate_steps_to_mastery, h]
  · intro p c h
    simp [calculate_mastery_probability, h]

/-- Witness for the amended C5 at concrete inputs: a state update for the
unknown concept `B` fails, and the mastery query for the never-attempted
concept `A` returns `0.0`. -/
theorem C5_amended_unknown_concept_witness :
    predict_next_state ⟨["A"], 1/10, 1/20⟩ [("A", 3/10)] "B" true = none ∧
    calculate_mastery_probability ⟨["A"], []⟩ "A" = 0 :=
  ⟨C5_amended_unknown_concept.1 ⟨["A"], 1/10, 1/20⟩ [("A", 3/10)] "B" true (by decide),
   C5_amended_unknown_concept.2.2.2 ⟨["A"], []⟩ "A" rfl⟩

/-! ### Claim C6 -/

/-- Claim C6: with at least three recorded pass flags (after appending
the flag `recent_accuracy > 0.65` for the current call), the difficulty
tier index escalates one step capped at 2 when at least two of the last
three flags are positive, de-escalates one step floored at 0 (truncated
subtraction) when none are, and holds otherwise. -/
theorem C6_difficulty_window (st : DifficultyAdaptor) (acc : ℚ)
    (h3 : 2 ≤ st.response_history.length) :
    (2 ≤ (lastN 3 (st.response_history ++ [decide (acc > 13/20)])).countP id →
      (get_next_difficulty st acc).difficulty_idx = min 2 (st.difficulty_idx + 1)) ∧
    ((lastN 3 (st.response_history ++ [decide (acc > 13/20)])).countP id = 0 →
      (get_next_difficulty st acc).difficulty_idx = st.difficulty_idx - 1) ∧
    ((lastN 3 (st.response_history ++ [decide (acc > 13/20)])).countP id = 1 →
      (get_next_difficulty st acc).difficulty_idx = st.difficulty_idx) := by
  have hlen : 3 ≤ (st.response_history ++ [decide (acc > 13/20)]).length := by
    rw [List.length_append]
    simp only [List.length_singleton]
    omega
  have key : (get_next_difficulty st acc).difficulty_idx =
      if 3 ≤ (st.response_history ++ [decide (acc > 13/20)]).length then
        (if 2 ≤ (lastN 3 (st.response_history ++ [decide (acc > 13/20)])).countP id
          then min 2 (st.difficulty_idx + 1)
          else if (lastN 3 (st.response_history ++ [decide (acc > 13/20)])).countP id = 0
            then st.difficulty_idx - 1
            else st.difficulty_idx)
      else st.difficulty_idx := rfl
  rw [key, if_pos hlen]
  refine ⟨fun hs => by rw [if_pos hs],
          fun hs => by rw [if_neg (by omega), if_pos hs],
          fun hs => by rw [if_neg (by omega), if_neg (by omega)]⟩

/-- Witness for C6: starting at tier index 1 with history `[pass, pass]`
and a passing accuracy 0.8, the last-3 window holds three passes and the
tier escalates to index 2 (Hard). -/
theorem C6_difficulty_window_witness :
    (get_next_difficulty ⟨1, [true, true]⟩ (4/5)).difficulty_idx = min 2 (1 + 1) :=
  (C6_difficulty_window ⟨1, [true, true]⟩ (4/5) (by decide)).1 (by
    rw [decide_eq_true (by norm_num : (4:ℚ)/5 > 13/20)]
    decide)

/-! ### Claim C9 -/

/-- Fields of any node produced by the ordering stage: the stored mastery
is the knowledge-vector read of its concept, the taxonomy tier is derived
from that mastery, and no status is set yet. -/
theorem mem_topo_fields (g : LearningPathGenerator) (sel : List String)
    (ks : KnowledgeState) (node : PathNode)
    (h : node ∈ topological_sort_concepts g sel ks) :
    node.current_mastery = kget ks node.concept ∧
    node.bloom_level = estimateBloomLevel (kget ks node.concept) := by
  unfold topological_sort_concepts at h
  obtain ⟨p, _, rfl⟩ := List.mem_map.mp h
  exact ⟨rfl, rfl⟩

/-- Claim C9: adapting a freshly generated path with the very knowledge
vector it was generated from only stamps a status on each node — length,
order, concept, mastery and taxonomy tier are all unchanged, and the
status is "completed" exactly at mastery at least 0.85, else
"in-progress". -/
theorem C9_roundtrip (g : LearningPathGenerator) (ks : KnowledgeState)
    (weak : List String) (num_concepts : ℕ) (max_difficulty : ℚ)
    (preference : String) :
    adapt_path (generate_path g ks weak num_concepts max_difficulty preference) ks =
      (generate_path g ks weak num_concepts max_difficulty preference).map
        (fun n =>
          { n with status := some (if 17/20 ≤ n.current_mastery then "completed" else "in-progress") }) := by
  unfold adapt_path
  apply List.map_congr_left
  intro node hmem
  obtain ⟨h1, h2⟩ := mem_topo_fields g
    (selectedConcepts g ks weak num_concepts max_difficulty preference) ks node hmem
  have hnm : (lookupK ks node.concept).getD node.current_mastery
      = node.current_mastery := by
    rw [h1]
    show (lookupK ks node.concept).getD ((lookupK ks node.concept).getD 0)
        = (lookupK ks node.concept).getD 0
    cases lookupK ks node.concept <;> rfl
  have hbl : estimateBloomLevel node.current_mastery = node.bloom_level := by
    rw [h1, h2]
  simp only [hnm, hbl]

/-! ### Claim C10 -/

/-- Writing one key of the state dict leaves every other key's binding
untouched. -/
theorem lookupK_setK_ne (ks : KnowledgeState) (c : String) (v : ℚ)
    (c' : String) (h : c' ≠ c) :
    lookupK (setK ks c v) c' = lookupK ks c' := by
  induction ks with
  | nil =>
      simp only [setK, lookupK]
      rw [if_neg (fun e => h e.symm)]
  | cons kv rest ih =>
      obtain ⟨k, w⟩ := kv
      by_cases hk : k = c
      · subst hk
        simp only [setK, lookupK]
        rw [if_neg (fun e => h e.symm), if_neg (fun e => h e.symm)]
      · simp only [setK, lookupK]
        rw [if_neg hk]
        simp only [lookupK]
        by_cases hk' : k = c'
        · rw [if_pos hk', if_pos hk']
        · rw [if_neg hk', if_neg hk', ih]

/-- Claim C10 (frame property): one knowledge-tracing state update, when
it succeeds, changes at most the updated concept's binding: every other
concept keeps its mastery, and the input dict itself is untouched — the
source updates a `copy()`, which the pure embedding renders by returning a
new association list. -/
theorem C10_frame (dkt : SimplifiedDKT) (ks : KnowledgeState) (c : String)
    (b : Bool) (ks' : KnowledgeState)
    (h : predict_next_state dkt ks c b = some ks')
    (c' : String) (hne : c' ≠ c) :
    lookupK ks' c' = lookupK ks c' := by
  unfold predict_next_state at h
  split_ifs at h
  split at h
  · rw [Option.some_inj] at h
    rw [← h]
    exact lookupK_setK_ne ks c _ c' hne
  · exact absurd h (by simp)

/-- Witness for C10: updating concept `A` of the sample state leaves the
binding of `B` unchanged. -/
theorem C10_frame_witness :
    lookupK (setK sampleKS "A" (masteryUpdate (1/10) (1/20) (4/5) true)) "B" =
      lookupK sampleKS "B" :=
  C10_frame ⟨["A", "B"], 1/10, 1/20⟩ sampleKS "A" true
    (setK sampleKS "A" (masteryUpdate (1/10) (1/20) (4/5) true))
    (by with_unfolding_all rfl) "B" (by decide)

end PersonalizedTutor
